import Mathlib

/-
Verification development for the ash-vault backup service.

The Python source is shallowly embedded: each job method becomes a Lean
function over an explicit environment that records what every external
command invocation (subprocess.run) would return.  Pure string
manipulation (strip, split, substring tests, sorted) is embedded by
Lean functions with the same semantics on the inputs the code handles.
-/

namespace AshVault

/-- Outcome of one external command invocation as seen by subprocess.run:
the process completed with an exit code and captured streams, the timeout
expired, or the invocation itself raised some other exception (whose
string rendering is recorded). -/
inductive SubprocessOutcome where
  | completed (returncode : Int) (stdout stderr : String)
  | timedOut
  | raised (msg : String)

/-- The command runner shared by all three jobs (SnapshotJob._run_command,
ReplicationJob._run_command, CloudSyncJob._run_command): exit code zero
yields (True, stdout); a non-zero exit yields (False, stderr); an expired
timeout yields (False, "Command timed out"); any other exception yields
(False, str(e)).  Totality of this Lean function is the embedding of the
try/except structure that makes the Python method never raise. -/
def runCommand : SubprocessOutcome → Bool × String
  | .completed rc out err => if rc = 0 then (true, out) else (false, err)
  | .timedOut => (false, "Command timed out")
  | .raised msg => (false, msg)

/-- Python substring membership (the in operator) on lists of characters. -/
def charsContain (pat : List Char) : List Char → Bool
  | [] => pat.isEmpty
  | c :: rest => pat.isPrefixOf (c :: rest) || charsContain pat rest

/-- Python substring membership test: pat in s. -/
def strContains (s pat : String) : Bool :=
  charsContain pat.toList s.toList

/-- Python str.strip(): remove leading and trailing whitespace. -/
def pyStrip (s : String) : String :=
  String.mk (((s.toList.dropWhile Char.isWhitespace).reverse.dropWhile
    Char.isWhitespace).reverse)

/-- Helper for single-character Python str.split. -/
def pySplitCharAux (sep : Char) (acc : List Char) : List Char → List String
  | [] => [String.mk acc.reverse]
  | c :: rest =>
    if c = sep then String.mk acc.reverse :: pySplitCharAux sep [] rest
    else pySplitCharAux sep (c :: acc) rest

/-- Python s.split(sep) for a single-character separator. -/
def pySplitChar (sep : Char) (s : String) : List String :=
  pySplitCharAux sep [] s.toList

/-- The idiom output.strip().split("\n") used by both listing helpers. -/
def splitLines (out : String) : List String :=
  pySplitChar '\n' (pyStrip out)

/-- Code-point lexicographic less-or-equal on character lists: the
ordering Python uses to compare and sort strings. -/
def charsLe : List Char → List Char → Bool
  | [], _ => true
  | _ :: _, [] => false
  | a :: as, b :: bs =>
    if a.toNat < b.toNat then true
    else if b.toNat < a.toNat then false
    else charsLe as bs

/-- Python string comparison a <= b (code-point lexicographic). -/
def strLeB (a b : String) : Bool :=
  charsLe a.toList b.toList

/-- The lexicographic comparison is total. -/
theorem charsLe_total : ∀ as bs, charsLe as bs = true ∨ charsLe bs as = true := by
  intro as
  induction as with
  | nil => intro bs; left; simp [charsLe]
  | cons a as ih =>
    intro bs
    cases bs with
    | nil => right; simp [charsLe]
    | cons b bs =>
      by_cases h1 : a.toNat < b.toNat
      · left; simp [charsLe, h1]
      · by_cases h2 : b.toNat < a.toNat
        · right; simp [charsLe, h2]
        · rcases ih bs with h | h
          · left; simp [charsLe, h1, h2, h]
          · right; simp [charsLe, h1, h2, h]

/-- The lexicographic comparison is transitive. -/
theorem charsLe_trans : ∀ as bs cs, charsLe as bs = true →
    charsLe bs cs = true → charsLe as cs = true := by
  intro as
  induction as with
  | nil => intro bs cs _ _; simp [charsLe]
  | cons a as ih =>
    intro bs cs hab hbc
    cases bs with
    | nil => simp [charsLe] at hab
    | cons b bs =>
      cases cs with
      | nil => simp [charsLe] at hbc
      | cons c cs =>
        by_cases hxy : a.toNat < b.toNat
        · by_cases hyz : b.toNat < c.toNat
          · simp [charsLe, Nat.lt_trans hxy hyz]
          · by_cases hzy : c.toNat < b.toNat
            · simp [charsLe, hyz, hzy] at hbc
            · have hxz : a.toNat < c.toNat :=
                Nat.lt_of_lt_of_le hxy (Nat.le_of_not_lt hzy)
              simp [charsLe, hxz]
        · by_cases hyx : b.toNat < a.toNat
          · simp [charsLe, hxy, hyx] at hab
          · have hxyeq : a.toNat = b.toNat :=
              Nat.le_antisymm (Nat.le_of_not_lt hyx) (Nat.le_of_not_lt hxy)
            simp only [charsLe, hxy, hyx, if_false] at hab
            by_cases hyz : b.toNat < c.toNat
            · simp [charsLe, hxyeq, hyz]
            · by_cases hzy : c.toNat < b.toNat
              · simp [charsLe, hyz, hzy] at hbc
              · simp only [charsLe, hyz, hzy, if_false] at hbc
                have h1 : ¬ a.toNat < c.toNat := by rw [hxyeq]; exact hyz
                have h2 : ¬ c.toNat < a.toNat := by rw [hxyeq]; exact hzy
                simp [charsLe, h1, h2]
                exact ih bs cs hab hbc

/-- Totality carried to strings. -/
theorem strLeB_total (a b : String) : strLeB a b = true ∨ strLeB b a = true :=
  charsLe_total a.toList b.toList

/-- Transitivity carried to strings. -/
theorem strLeB_trans {a b c : String} (h1 : strLeB a b = true)
    (h2 : strLeB b c = true) : strLeB a c = true :=
  charsLe_trans a.toList b.toList c.toList h1 h2

/-- Stable insertion of one element into a list already ordered by a
comparison: the new element goes before the first existing element it
compares less-or-equal to, hence before equal elements seen later. -/
def insertSortedBy (le : String → String → Bool) (a : String) :
    List String → List String
  | [] => [a]
  | b :: rest =>
    if le a b then a :: b :: rest else b :: insertSortedBy le a rest

/-- Stable ascending sort by a comparison (insertion sort). -/
def sortStringsBy (le : String → String → Bool) : List String → List String
  | [] => []
  | a :: rest => insertSortedBy le a (sortStringsBy le rest)

/-- Python sorted() on strings: stable ascending code-point
lexicographic sort. -/
def sortStrings (l : List String) : List String :=
  sortStringsBy strLeB l

/-- Membership is preserved by sorted insertion. -/
theorem mem_insertSortedBy {le : String → String → Bool} {b a : String} :
    ∀ {l : List String}, b ∈ insertSortedBy le a l ↔ b = a ∨ b ∈ l := by
  intro l
  induction l with
  | nil => simp [insertSortedBy]
  | cons c rest ih =>
    by_cases h : le a c = true <;> simp [insertSortedBy, h, ih] <;> tauto

/-- Membership is preserved by the sort. -/
theorem mem_sortStringsBy {le : String → String → Bool} {b : String} :
    ∀ {l : List String}, b ∈ sortStringsBy le l ↔ b ∈ l := by
  intro l
  induction l with
  | nil => simp [sortStringsBy]
  | cons c rest ih => simp [sortStringsBy, mem_insertSortedBy, ih]

/-- Sorted insertion with the lexicographic comparison preserves the
pairwise ordering. -/
theorem pairwise_insertSorted {a : String} :
    ∀ {l : List String}, l.Pairwise (fun x y => strLeB x y = true) →
      (insertSortedBy strLeB a l).Pairwise (fun x y => strLeB x y = true) := by
  intro l
  induction l with
  | nil => simp [insertSortedBy]
  | cons b rest ih =>
    intro hp
    rcases List.pairwise_cons.1 hp with ⟨hb, hrest⟩
    cases hab : strLeB a b with
    | true =>
      have heq : insertSortedBy strLeB a (b :: rest) = a :: b :: rest := by
        simp [insertSortedBy, hab]
      rw [heq]
      refine List.pairwise_cons.2 ⟨?_, hp⟩
      intro x hx
      rcases List.mem_cons.1 hx with rfl | hx2
      · exact hab
      · exact strLeB_trans hab (hb x hx2)
    | false =>
      have hba : strLeB b a = true := by
        rcases strLeB_total a b with h | h
        · rw [h] at hab; cases hab
        · exact h
      have heq : insertSortedBy strLeB a (b :: rest)
          = b :: insertSortedBy strLeB a rest := by
        simp [insertSortedBy, hab]
      rw [heq]
      refine List.pairwise_cons.2 ⟨?_, ih hrest⟩
      intro x hx
      rcases mem_insertSortedBy.1 hx with rfl | hx2
      · exact hba
      · exact hb x hx2

/-- The sorted list is pairwise ordered. -/
theorem sortStrings_pairwise : ∀ (l : List String),
    (sortStrings l).Pairwise (fun x y => strLeB x y = true) := by
  intro l
  induction l with
  | nil => simp [sortStrings, sortStringsBy]
  | cons a rest ih =>
    simpa [sortStrings, sortStringsBy] using pairwise_insertSorted ih

/-- Outcome of posting the Discord webhook (httpx post plus
raise_for_status): either the post succeeded or some delivery
exception was raised. -/
inductive HttpOutcome where
  | posted
  | failed (msg : String)

/-- AlertManager configuration loaded at construction time. -/
structure AlertConfig where
  enabled : Bool
  onSuccess : Bool
  onFailure : Bool
  webhookUrl : Option String

/-- AlertManager.send_alert: returns False when alerting is disabled or no
webhook is configured; otherwise posts and returns True on HTTP success;
any delivery exception is caught and turned into False. -/
def sendAlert (cfg : AlertConfig) (http : HttpOutcome) : Bool :=
  if !cfg.enabled then false
  else
    match cfg.webhookUrl with
    | none => false
    | some _ =>
      match http with
      | .posted => true
      | .failed _ => false

/-- AlertManager.backup_success: gated on the on_backup_success flag. -/
def backupSuccess (cfg : AlertConfig) (http : HttpOutcome) : Bool :=
  if !cfg.onSuccess then false else sendAlert cfg http

/-- AlertManager.backup_failure: gated on the on_backup_failure flag. -/
def backupFailure (cfg : AlertConfig) (http : HttpOutcome) : Bool :=
  if !cfg.onFailure then false else sendAlert cfg http

/-- An alert emitted to the sink at the end of a job run (detail strings
other than the error message are elided). -/
inductive Alert where
  | success (jobName : String)
  | failure (jobName error : String)
deriving DecidableEq

/-- SnapshotJob configuration: dataset plus the retention keep-counts
loaded from the retention section. -/
structure SnapshotConfig where
  dataset : String
  dailyKeep : Nat
  weeklyKeep : Nat
  monthlyKeep : Nat

/-- Lookup self.retention.get(snapshot_type, 7) on the three-key dict. -/
def retentionGet (cfg : SnapshotConfig) (ty : String) : Nat :=
  if ty = "daily" then cfg.dailyKeep
  else if ty = "weekly" then cfg.weeklyKeep
  else if ty = "monthly" then cfg.monthlyKeep
  else 7

/-- Environment of one SnapshotJob run: what subprocess.run would return
for the create command and for the listing command.  Destroy-command
results are ignored by the code (failures are only logged), so they do
not appear. -/
structure SnapEnv where
  createOutcome : SubprocessOutcome
  listOutcome : SubprocessOutcome

/-- The deterministic snapshot name dataset@type-date. -/
def snapshotName (dataset ty today : String) : String :=
  dataset ++ "@" ++ ty ++ "-" ++ today

/-- The zfs snapshot command issued by _create_snapshot. -/
def createSnapshotCmd (cfg : SnapshotConfig) (ty today : String) : List String :=
  ["zfs", "snapshot", snapshotName cfg.dataset ty today]

/-- The zfs list command issued by _list_snapshots. -/
def listSnapshotsCmd (cfg : SnapshotConfig) : List String :=
  ["zfs", "list", "-t", "snapshot", "-o", "name", "-H", "-r", cfg.dataset]

/-- The zfs destroy command issued per pruned snapshot. -/
def destroyCmd (s : String) : List String :=
  ["zfs", "destroy", s]

/-- SnapshotJob._list_snapshots: on listing failure return the empty list;
otherwise keep the nonempty lines containing @type- and return them
sorted ascending. -/
def snapListSnapshots (env : SnapEnv) (ty : String) : List String :=
  let r := runCommand env.listOutcome
  if r.1 then
    sortStrings ((splitLines r.2).filter
      (fun l => l ≠ "" && strContains l ("@" ++ ty ++ "-")))
  else []

/-- Stop index of the Python slice l[:-k] (for k = 0 the slice is l[:0],
which is empty, not the whole list). -/
def pySliceStop (n k : Nat) : Nat :=
  if k = 0 then 0 else n - k

/-- The deletion selection of _cleanup_old_snapshots: return early when the
count is within retention, otherwise take snapshots[:-retention_count]. -/
def cleanupToDelete (snapshots : List String) (keep : Nat) : List String :=
  if snapshots.length ≤ keep then []
  else snapshots.take (pySliceStop snapshots.length keep)

/-- Commands issued by _cleanup_old_snapshots: one listing, then one
destroy per selected snapshot (a destroy failure is logged and does not
abort the batch, so every selected entry is attempted). -/
def cleanupCmds (env : SnapEnv) (cfg : SnapshotConfig) (ty : String) :
    List (List String) :=
  listSnapshotsCmd cfg ::
    (cleanupToDelete (snapListSnapshots env ty) (retentionGet cfg ty)).map destroyCmd

/-- Python str.capitalize(). -/
def pyCapitalize (s : String) : String :=
  match s.toList with
  | [] => ""
  | c :: rest => String.mk (c.toUpper :: rest.map Char.toLower)

/-- The job name string built in _run_snapshot_job. -/
def snapJobName (ty : String) : String :=
  "ZFS " ++ pyCapitalize ty ++ " Snapshot"

/-- Observable result of one job run: the returned boolean, the external
commands issued in order, the alerts emitted, and the delivery results of
those alerts (which the job discards). -/
structure JobResult where
  ok : Bool
  cmds : List (List String)
  alerts : List Alert
  deliveries : List Bool
deriving DecidableEq

/-- The try-block body of _run_snapshot_job: an Except.error is a raised
exception; the second component records the external commands issued
before control left the block. -/
def snapshotJobTry (env : SnapEnv) (cfg : SnapshotConfig) (ty today : String) :
    Except String Unit × List (List String) :=
  if (runCommand env.createOutcome).1 then
    (Except.ok (), createSnapshotCmd cfg ty today :: cleanupCmds env cfg ty)
  else
    (Except.error ("Failed to create " ++ ty ++ " snapshot"),
     [createSnapshotCmd cfg ty today])

/-- SnapshotJob._run_snapshot_job: the try/except makes the run total, so
its observable value is a plain JobResult. -/
def runSnapshotJob (env : SnapEnv) (cfg : SnapshotConfig) (ac : AlertConfig)
    (http : HttpOutcome) (ty today : String) : JobResult :=
  match snapshotJobTry env cfg ty today with
  | (Except.ok _, cmds) =>
    { ok := true, cmds := cmds, alerts := [Alert.success (snapJobName ty)],
      deliveries := [backupSuccess ac http] }
  | (Except.error e, cmds) =>
    { ok := false, cmds := cmds, alerts := [Alert.failure (snapJobName ty) e],
      deliveries := [backupFailure ac http] }

/-- _run_snapshot_job as the scheduler sees it: a computation that could
in principle propagate an exception; the except handler itself returns
normally on both paths. -/
def runSnapshotJobE (env : SnapEnv) (cfg : SnapshotConfig) (ac : AlertConfig)
    (http : HttpOutcome) (ty today : String) : Except String JobResult :=
  match snapshotJobTry env cfg ty today with
  | (Except.ok _, cmds) =>
    Except.ok { ok := true, cmds := cmds,
                alerts := [Alert.success (snapJobName ty)],
                deliveries := [backupSuccess ac http] }
  | (Except.error e, cmds) =>
    Except.ok { ok := false, cmds := cmds,
                alerts := [Alert.failure (snapJobName ty) e],
                deliveries := [backupFailure ac http] }

/-- A transfer pipeline issued by the replication job: either a full send
of one snapshot (zfs send -w piped into the remote receive) or an
incremental send (zfs send -w -i @base target), recording the base part
after the at sign and the full target name. -/
inductive ReplTransfer where
  | fullSend (snapshot : String)
  | incrementalSend (base target : String)
deriving DecidableEq

/-- Environment of one ReplicationJob run: what subprocess.run would
return for the local listing, for the ssh remote listing, and for each
possible transfer pipeline. -/
structure ReplEnv where
  localListOutcome : SubprocessOutcome
  remoteListOutcome : SubprocessOutcome
  transferOutcome : ReplTransfer → SubprocessOutcome

/-- The filtered list built inside _get_latest_snapshot: the nonempty
lines of the local listing output that contain @daily-. -/
def replDailyLines (env : ReplEnv) : List String :=
  (splitLines (runCommand env.localListOutcome).2).filter
    (fun l => l ≠ "" && strContains l "@daily-")

/-- ReplicationJob._get_latest_snapshot: list local snapshots, keep the
nonempty lines containing @daily-, and return the lexicographically last
one; None when the listing fails or no daily snapshot exists. -/
def replGetLatestSnapshot (env : ReplEnv) : Option String :=
  if (runCommand env.localListOutcome).1 then
    if (replDailyLines env).isEmpty then none
    else (sortStrings (replDailyLines env)).getLast?
  else none

/-- ReplicationJob._get_remote_latest_snapshot: None both when the ssh
command fails and when it succeeds with empty output; otherwise the
stripped output provided it contains an at sign. -/
def replGetRemoteLatestSnapshot (env : ReplEnv) : Option String :=
  let r := runCommand env.remoteListOutcome
  if r.1 && pyStrip r.2 ≠ "" then
    let fullName := pyStrip r.2
    if strContains fullName "@" then some fullName else none
  else none

/-- The from_snap.split("@")[-1] step of _do_incremental_send. -/
def shortSnapName (s : String) : String :=
  if strContains s "@" then (pySplitChar '@' s).getLastD s else s

/-- Success test of the raw subprocess.run around a transfer pipeline:
exit code 0; every other outcome (non-zero exit, timeout, exception)
is logged and turned into False. -/
def transferSucceeds (o : SubprocessOutcome) : Bool :=
  match o with
  | .completed 0 _ _ => true
  | _ => false

/-- The nonempty lines of the local listing output: the local catalog as
this run observed it. -/
def replLocalCatalog (env : ReplEnv) : List String :=
  (splitLines (runCommand env.localListOutcome).2).filter (fun l => l ≠ "")

/-- The part of a snapshot name after the at sign (its class-label). -/
def afterAtSign (s : String) : String :=
  (pySplitChar '@' s).getLastD s

/-- The label of a snapshot name: the class-label part with the class and
the first dash removed (for a@daily-2026-01-08 this is 2026-01-08). -/
def labelOf (s : String) : String :=
  String.mk (((afterAtSign s).toList.dropWhile (fun c => c ≠ '-')).drop 1)

/-- Modelled from the spec for comparison with the code: the latest local
snapshot across all classes is the catalog entry whose label is
chronologically (hence, labels being sortable tokens, lexicographically)
greatest. -/
def spec_latestAcrossAllClasses (catalog : List String) : Option String :=
  (sortStringsBy (fun a b => strLeB (labelOf a) (labelOf b)) catalog).getLast?

/-- The try-block body of ReplicationJob.run: look up the local latest
daily snapshot (raising when absent), query the remote latest, then pipe
an incremental send when the remote reported a snapshot and a full send
otherwise, raising when the pipe fails.  The second component records the
transfer pipelines issued. -/
def replicationTry (env : ReplEnv) : Except String Unit × List ReplTransfer :=
  match replGetLatestSnapshot env with
  | none => (Except.error "No local snapshots available for replication", [])
  | some localLatest =>
    match replGetRemoteLatestSnapshot env with
    | some remoteLatest =>
      let t := ReplTransfer.incrementalSend (shortSnapName remoteLatest) localLatest
      if transferSucceeds (env.transferOutcome t) then (Except.ok (), [t])
      else (Except.error "ZFS send/recv failed", [t])
    | none =>
      let t := ReplTransfer.fullSend localLatest
      if transferSucceeds (env.transferOutcome t) then (Except.ok (), [t])
      else (Except.error "ZFS send/recv failed", [t])

/-- Observable result of one replication run. -/
structure ReplResult where
  ok : Bool
  transfers : List ReplTransfer
  alerts : List Alert
  deliveries : List Bool
deriving DecidableEq

/-- ReplicationJob.run after the try/except: total observable value. -/
def runReplicationJob (env : ReplEnv) (ac : AlertConfig) (http : HttpOutcome) :
    ReplResult :=
  match replicationTry env with
  | (Except.ok _, ts) =>
    { ok := true, transfers := ts,
      alerts := [Alert.success "ZFS Replication to Lofn"],
      deliveries := [backupSuccess ac http] }
  | (Except.error e, ts) =>
    { ok := false, transfers := ts,
      alerts := [Alert.failure "ZFS Replication to Lofn" e],
      deliveries := [backupFailure ac http] }

/-- ReplicationJob.run as the scheduler sees it. -/
def runReplicationJobE (env : ReplEnv) (ac : AlertConfig) (http : HttpOutcome) :
    Except String ReplResult :=
  match replicationTry env with
  | (Except.ok _, ts) =>
    Except.ok { ok := true, transfers := ts,
                alerts := [Alert.success "ZFS Replication to Lofn"],
                deliveries := [backupSuccess ac http] }
  | (Except.error e, ts) =>
    Except.ok { ok := false, transfers := ts,
                alerts := [Alert.failure "ZFS Replication to Lofn" e],
                deliveries := [backupFailure ac http] }

/-- Environment of one CloudSyncJob run: results of the rclone lsd check,
the du size query and the rclone sync transfer. -/
structure CloudEnv where
  rcloneCheckOutcome : SubprocessOutcome
  duOutcome : SubprocessOutcome
  syncOutcome : SubprocessOutcome

/-- Observable result of one cloud sync run. -/
structure CloudResult where
  ok : Bool
  alerts : List Alert
  deliveries : List Bool
deriving DecidableEq

/-- The try-block body of CloudSyncJob.run: configuration check, local
size query (failures collapse to "unknown"), then the sync itself. -/
def cloudSyncTry (env : CloudEnv) : Except String Unit :=
  if !(runCommand env.rcloneCheckOutcome).1 then
    Except.error "Rclone configuration check failed"
  else
    let sync := runCommand env.syncOutcome
    if !sync.1 then Except.error ("Rclone sync failed: " ++ sync.2)
    else Except.ok ()

/-- CloudSyncJob.run after the try/except: total observable value. -/
def runCloudSyncJob (env : CloudEnv) (ac : AlertConfig) (http : HttpOutcome) :
    CloudResult :=
  match cloudSyncTry env with
  | Except.ok _ =>
    { ok := true, alerts := [Alert.success "Cloud Sync to Backblaze B2"],
      deliveries := [backupSuccess ac http] }
  | Except.error e =>
    { ok := false, alerts := [Alert.failure "Cloud Sync to Backblaze B2" e],
      deliveries := [backupFailure ac http] }

/-- CloudSyncJob.run as the scheduler sees it. -/
def runCloudSyncJobE (env : CloudEnv) (ac : AlertConfig) (http : HttpOutcome) :
    Except String CloudResult :=
  match cloudSyncTry env with
  | Except.ok _ =>
    Except.ok { ok := true, alerts := [Alert.success "Cloud Sync to Backblaze B2"],
                deliveries := [backupSuccess ac http] }
  | Except.error e =>
    Except.ok { ok := false,
                alerts := [Alert.failure "Cloud Sync to Backblaze B2" e],
                deliveries := [backupFailure ac http] }

/-- C10: the command runner is total (the try/except structure catches
every outcome) and returns (True, stdout) exactly on exit code 0,
(False, stderr) on a non-zero exit, (False, "Command timed out") on a
timeout, and (False, str(e)) on any other execution error. -/
theorem runCommand_total (rc : Int) (out err m : String) (hrc : rc ≠ 0) :
    runCommand (.completed 0 out err) = (true, out)
    ∧ runCommand (.completed rc out err) = (false, err)
    ∧ runCommand .timedOut = (false, "Command timed out")
    ∧ runCommand (.raised m) = (false, m) := by
  refine ⟨rfl, ?_, rfl, rfl⟩
  simp [runCommand, hrc]

/-- Concrete instantiation of runCommand_total at exit code 1. -/
theorem runCommand_total_witness :
    runCommand (.completed 0 "o" "e") = (true, "o")
    ∧ runCommand (.completed 1 "o" "e") = (false, "e")
    ∧ runCommand .timedOut = (false, "Command timed out")
    ∧ runCommand (.raised "boom") = (false, "boom") :=
  runCommand_total 1 "o" "e" "boom" (by decide)

/-- A small snapshot configuration used by concrete runs. -/
def cfgA : SnapshotConfig :=
  { dataset := "a", dailyKeep := 7, weeklyKeep := 4, monthlyKeep := 12 }

/-- A concrete alerting configuration with a configured webhook. -/
def acA : AlertConfig :=
  { enabled := true, onSuccess := false, onFailure := true,
    webhookUrl := some "hook" }

/-- Environment of a same-day re-run: the snapshot of that name already
exists, so the unconditional zfs snapshot command exits non-zero. -/
def envCreateExists : SnapEnv :=
  { createOutcome := .completed 1 ""
      "cannot create snapshot a@daily-2026-01-09: dataset already exists",
    listOutcome := .completed 0 "a@daily-2026-01-09" "" }

/-- C3: at keep-count zero the slice snapshots[:-0] is empty, so the
cleanup selection retains every snapshot instead of selecting all of
them for deletion; keep = 0 behaves as unlimited, for every input. -/
theorem cleanupToDelete_keep_zero (l : List String) :
    cleanupToDelete l 0 = [] := by
  simp [cleanupToDelete, pySliceStop]

/-- C4 counterexample: on a same-day re-run where the snapshot name
already exists, the job does not treat creation as success: it returns
False and issues only the failing create command, with no pruning. -/
theorem snapshot_rerun_counterexample :
    (runSnapshotJob envCreateExists cfgA acA .posted "daily" "2026-01-09").ok = false
    ∧ (runSnapshotJob envCreateExists cfgA acA .posted "daily" "2026-01-09").cmds
      = [["zfs", "snapshot", "a@daily-2026-01-09"]] :=
  ⟨rfl, rfl⟩

/-- C4 amended: the job performs no existence pre-check - the create
command is always the first command issued - and whenever the store
rejects the create (as it does for a duplicate name), the run reports
failure, issues no further command, and emits a failure alert. -/
theorem snapshot_rerun_reissues_create
    (env : SnapEnv) (cfg : SnapshotConfig) (ac : AlertConfig)
    (http : HttpOutcome) (ty today : String) :
    (runSnapshotJob env cfg ac http ty today).cmds.head?
      = some (createSnapshotCmd cfg ty today)
    ∧ ((runCommand env.createOutcome).1 = false →
        (runSnapshotJob env cfg ac http ty today).ok = false
        ∧ (runSnapshotJob env cfg ac http ty today).cmds
          = [createSnapshotCmd cfg ty today]
        ∧ (runSnapshotJob env cfg ac http ty today).alerts
          = [Alert.failure (snapJobName ty)
              ("Failed to create " ++ ty ++ " snapshot")]) := by
  unfold runSnapshotJob snapshotJobTry
  cases hc : (runCommand env.createOutcome).1 <;> simp [hc]

/-- Concrete instantiation of snapshot_rerun_reissues_create on the
duplicate-name environment. -/
theorem snapshot_rerun_reissues_create_witness :
    (runCommand envCreateExists.createOutcome).1 = false
    ∧ (runSnapshotJob envCreateExists cfgA acA .posted "daily" "2026-01-09").cmds.head?
      = some (createSnapshotCmd cfgA "daily" "2026-01-09")
    ∧ ((runSnapshotJob envCreateExists cfgA acA .posted "daily" "2026-01-09").ok = false
        ∧ (runSnapshotJob envCreateExists cfgA acA .posted "daily" "2026-01-09").cmds
          = [createSnapshotCmd cfgA "daily" "2026-01-09"]
        ∧ (runSnapshotJob envCreateExists cfgA acA .posted "daily" "2026-01-09").alerts
          = [Alert.failure (snapJobName "daily")
              ("Failed to create " ++ "daily" ++ " snapshot")]) :=
  ⟨rfl,
   (snapshot_rerun_reissues_create envCreateExists cfgA acA .posted "daily" "2026-01-09").1,
   (snapshot_rerun_reissues_create envCreateExists cfgA acA .posted "daily" "2026-01-09").2 rfl⟩

/-- C8: when snapshot creation fails, the run reports failure, emits a
failure alert, and issues no destroy command at all - pruning is skipped
entirely. -/
theorem snapshot_no_prune_after_failed_create
    (env : SnapEnv) (cfg : SnapshotConfig) (ac : AlertConfig)
    (http : HttpOutcome) (ty today : String)
    (hfail : (runCommand env.createOutcome).1 = false) :
    (runSnapshotJob env cfg ac http ty today).ok = false
    ∧ (∀ s, destroyCmd s ∉ (runSnapshotJob env cfg ac http ty today).cmds)
    ∧ (runSnapshotJob env cfg ac http ty today).alerts
      = [Alert.failure (snapJobName ty)
          ("Failed to create " ++ ty ++ " snapshot")] := by
  unfold runSnapshotJob snapshotJobTry
  simp [hfail, destroyCmd, createSnapshotCmd]

/-- Concrete instantiation of snapshot_no_prune_after_failed_create on a
failing create. -/
theorem snapshot_no_prune_after_failed_create_witness :
    (runCommand envCreateExists.createOutcome).1 = false
    ∧ ((runSnapshotJob envCreateExists cfgA acA (.failed "down") "daily" "2026-01-09").ok = false
        ∧ (∀ s, destroyCmd s ∉ (runSnapshotJob envCreateExists cfgA acA
            (.failed "down") "daily" "2026-01-09").cmds)
        ∧ (runSnapshotJob envCreateExists cfgA acA (.failed "down") "daily" "2026-01-09").alerts
          = [Alert.failure (snapJobName "daily")
              ("Failed to create " ++ "daily" ++ " snapshot")]) :=
  ⟨rfl, snapshot_no_prune_after_failed_create envCreateExists cfgA acA
    (.failed "down") "daily" "2026-01-09" rfl⟩

/-- C9: none of the three job runs lets an exception escape to the
scheduler (each is the total value wrapped in Except.ok), and the
returned success flag of each job is unchanged when the alert delivery
outcome changes - a failed alert post never changes a job result. -/
theorem jobs_never_raise_and_alert_independent
    (se : SnapEnv) (cfg : SnapshotConfig) (re : ReplEnv) (ce : CloudEnv)
    (ac : AlertConfig) (h1 h2 : HttpOutcome) (ty today : String) :
    runSnapshotJobE se cfg ac h1 ty today
      = Except.ok (runSnapshotJob se cfg ac h1 ty today)
    ∧ runReplicationJobE re ac h1 = Except.ok (runReplicationJob re ac h1)
    ∧ runCloudSyncJobE ce ac h1 = Except.ok (runCloudSyncJob ce ac h1)
    ∧ (runSnapshotJob se cfg ac h1 ty today).ok
      = (runSnapshotJob se cfg ac h2 ty today).ok
    ∧ (runReplicationJob re ac h1).ok = (runReplicationJob re ac h2).ok
    ∧ (runCloudSyncJob ce ac h1).ok = (runCloudSyncJob ce ac h2).ok := by
  refine ⟨?_, ?_, ?_, ?_, ?_, ?_⟩
  · rcases h : snapshotJobTry se cfg ty today with ⟨e | u, cmds⟩ <;>
      simp [runSnapshotJobE, runSnapshotJob, h]
  · rcases h : replicationTry re with ⟨e | u, ts⟩ <;>
      simp [runReplicationJobE, runReplicationJob, h]
  · rcases h : cloudSyncTry ce with e | u <;>
      simp [runCloudSyncJobE, runCloudSyncJob, h]
  · rcases h : snapshotJobTry se cfg ty today with ⟨e | u, cmds⟩ <;>
      simp [runSnapshotJob, h]
  · rcases h : replicationTry re with ⟨e | u, ts⟩ <;>
      simp [runReplicationJob, h]
  · rcases h : cloudSyncTry ce with e | u <;>
      simp [runCloudSyncJob, h]

/-- The transfers issued by a replication run are exactly those recorded
by the try-block body. -/
theorem runReplicationJob_transfers (env : ReplEnv) (ac : AlertConfig)
    (http : HttpOutcome) :
    (runReplicationJob env ac http).transfers = (replicationTry env).2 := by
  rcases h : replicationTry env with ⟨e | u, ts⟩ <;>
    simp [runReplicationJob, h]

/-- When a local latest exists and the remote reported a latest snapshot,
the body issues exactly one incremental send from the short remote name
to the local latest. -/
theorem replicationTry_incremental (env : ReplEnv) (s r : String)
    (hl : replGetLatestSnapshot env = some s)
    (hr : replGetRemoteLatestSnapshot env = some r) :
    (replicationTry env).2
      = [ReplTransfer.incrementalSend (shortSnapName r) s] := by
  unfold replicationTry
  rw [hl, hr]
  dsimp only
  split <;> rfl

/-- When a local latest exists and no remote latest was obtained, the body
issues exactly one full send of the local latest. -/
theorem replicationTry_full (env : ReplEnv) (s : String)
    (hl : replGetLatestSnapshot env = some s)
    (hr : replGetRemoteLatestSnapshot env = none) :
    (replicationTry env).2 = [ReplTransfer.fullSend s] := by
  unfold replicationTry
  rw [hl, hr]
  dsimp only
  split <;> rfl

/-- In a pairwise-ordered list every element is the last one or relates to
it. -/
theorem pairwise_getLast_ub {α : Type} {R : α → α → Prop} {l : List α}
    (hp : l.Pairwise R) {m : α} (hm : l.getLast? = some m) :
    ∀ a ∈ l, a = m ∨ R a m := by
  obtain ⟨ys, rfl⟩ := List.getLast?_eq_some_iff.1 hm
  intro a ha
  rcases List.mem_append.1 ha with h | h
  · exact Or.inr ((List.pairwise_append.1 hp).2.2 a h m (List.mem_singleton.2 rfl))
  · exact Or.inl (by simpa using h)

/-- Replication environment with two local daily snapshots and a given
remote listing outcome; every transfer pipeline would succeed. -/
def replEnvLocal (remote : SubprocessOutcome) : ReplEnv :=
  { localListOutcome := .completed 0 "a@daily-2026-01-08\na@daily-2026-01-09" "",
    remoteListOutcome := remote,
    transferOutcome := fun _ => .completed 0 "" "" }

/-- The ssh query to the remote raises (connection failure). -/
def replEnvUnreachable : ReplEnv :=
  replEnvLocal (.raised "ssh: connect to host 10.20.30.253 timed out")

/-- The remote is reachable but reports no snapshots. -/
def replEnvEmptyRemote : ReplEnv :=
  replEnvLocal (.completed 0 "" "")

/-- The remote reports a latest snapshot whose short name is also present
in the local catalog. -/
def replEnvRemotePresent : ReplEnv :=
  replEnvLocal (.completed 0 "b@daily-2026-01-08" "")

/-- The remote reports a latest snapshot whose short name is absent from
the local catalog (local retention already pruned it). -/
def replEnvDiverged : ReplEnv :=
  replEnvLocal (.completed 0 "b@daily-2026-01-03" "")

/-- Local catalog holding a daily snapshot and a chronologically newer
monthly snapshot; remote empty. -/
def replEnvMixedClasses : ReplEnv :=
  { localListOutcome := .completed 0 "a@daily-2026-01-08\na@monthly-2026-01-09" "",
    remoteListOutcome := .completed 0 "" "",
    transferOutcome := fun _ => .completed 0 "" "" }

/-- Snapshot environment whose listing command exits non-zero. -/
def envListFail : SnapEnv :=
  { createOutcome := .completed 0 "" "",
    listOutcome := .completed 1 "" "cannot open dataset" }

/-- Snapshot environment whose listing succeeds with no snapshots. -/
def envListEmpty : SnapEnv :=
  { createOutcome := .completed 0 "" "", listOutcome := .completed 0 "" "" }

/-- Replication environment whose local listing command exits non-zero. -/
def replEnvListFail : ReplEnv :=
  { localListOutcome := .completed 1 "" "cannot open dataset",
    remoteListOutcome := .completed 0 "" "",
    transferOutcome := fun _ => .completed 0 "" "" }

/-- Replication environment whose local listing succeeds empty. -/
def replEnvListEmptyOut : ReplEnv :=
  { localListOutcome := .completed 0 "" "",
    remoteListOutcome := .completed 0 "" "",
    transferOutcome := fun _ => .completed 0 "" "" }

/-- C2 counterexample: with an unreachable remote (the ssh query raises)
the run still attempts a transfer - a full send - and its entire
observable result is identical to the reachable-but-empty remote run:
the two conditions are conflated. -/
theorem repl_unreachable_counterexample :
    (runReplicationJob replEnvUnreachable acA .posted).transfers
      = [ReplTransfer.fullSend "a@daily-2026-01-09"]
    ∧ runReplicationJob replEnvUnreachable acA .posted
      = runReplicationJob replEnvEmptyRemote acA .posted :=
  ⟨rfl, rfl⟩

/-- C2 amended: a failed remote query and an empty remote listing are
indistinguishable - in both cases the remote latest is None and the run
performs a full send of the local latest; no distinct RemoteUnreachable
error exists. -/
theorem repl_unreachable_equals_empty
    (env : ReplEnv) (ac : AlertConfig) (http : HttpOutcome) (s : String)
    (hl : replGetLatestSnapshot env = some s)
    (hr : (runCommand env.remoteListOutcome).1 = false
          ∨ pyStrip (runCommand env.remoteListOutcome).2 = "") :
    (runReplicationJob env ac http).transfers = [ReplTransfer.fullSend s] := by
  have hnone : replGetRemoteLatestSnapshot env = none := by
    rcases hr with h | h <;> simp [replGetRemoteLatestSnapshot, h]
  rw [runReplicationJob_transfers]
  exact replicationTry_full env s hl hnone

/-- Concrete instantiation of repl_unreachable_equals_empty on the
unreachable-remote environment. -/
theorem repl_unreachable_equals_empty_witness :
    replGetLatestSnapshot replEnvUnreachable = some "a@daily-2026-01-09"
    ∧ ((runCommand replEnvUnreachable.remoteListOutcome).1 = false
        ∨ pyStrip (runCommand replEnvUnreachable.remoteListOutcome).2 = "")
    ∧ (runReplicationJob replEnvUnreachable acA .posted).transfers
      = [ReplTransfer.fullSend "a@daily-2026-01-09"] :=
  ⟨rfl, Or.inl rfl,
   repl_unreachable_equals_empty replEnvUnreachable acA .posted _ rfl (Or.inl rfl)⟩

/-- C7: replication decision determinism - with a local latest present,
a reachable remote with empty output always yields exactly one full send
of the local latest, and a remote latest that is present in the local
catalog always yields exactly one incremental send whose base is the
remote latest (its part after the at sign) and whose target is the local
latest. -/
theorem repl_decision_determinism
    (env : ReplEnv) (ac : AlertConfig) (http : HttpOutcome) (s : String)
    (hl : replGetLatestSnapshot env = some s) :
    ((runCommand env.remoteListOutcome).1 = true →
      pyStrip (runCommand env.remoteListOutcome).2 = "" →
      (runReplicationJob env ac http).transfers = [ReplTransfer.fullSend s])
    ∧ (∀ r, replGetRemoteLatestSnapshot env = some r →
        shortSnapName r ∈ (replLocalCatalog env).map shortSnapName →
        (runReplicationJob env ac http).transfers
          = [ReplTransfer.incrementalSend (shortSnapName r) s]) := by
  constructor
  · intro _ h2
    have hnone : replGetRemoteLatestSnapshot env = none := by
      simp [replGetRemoteLatestSnapshot, h2]
    rw [runReplicationJob_transfers]
    exact replicationTry_full env s hl hnone
  · intro r hr _
    rw [runReplicationJob_transfers]
    exact replicationTry_incremental env s r hl hr

/-- Concrete instantiation of repl_decision_determinism, matching the
spec scenario: base daily-2026-01-08, target daily-2026-01-09. -/
theorem repl_decision_determinism_witness :
    replGetLatestSnapshot replEnvEmptyRemote = some "a@daily-2026-01-09"
    ∧ (runCommand replEnvEmptyRemote.remoteListOutcome).1 = true
    ∧ pyStrip (runCommand replEnvEmptyRemote.remoteListOutcome).2 = ""
    ∧ (runReplicationJob replEnvEmptyRemote acA .posted).transfers
      = [ReplTransfer.fullSend "a@daily-2026-01-09"]
    ∧ replGetLatestSnapshot replEnvRemotePresent = some "a@daily-2026-01-09"
    ∧ replGetRemoteLatestSnapshot replEnvRemotePresent = some "b@daily-2026-01-08"
    ∧ shortSnapName "b@daily-2026-01-08"
        ∈ (replLocalCatalog replEnvRemotePresent).map shortSnapName
    ∧ (runReplicationJob replEnvRemotePresent acA .posted).transfers
      = [ReplTransfer.incrementalSend (shortSnapName "b@daily-2026-01-08")
          "a@daily-2026-01-09"] :=
  ⟨rfl, rfl, rfl,
   (repl_decision_determinism replEnvEmptyRemote acA .posted _ rfl).1 rfl rfl,
   rfl, rfl, by decide,
   (repl_decision_determinism replEnvRemotePresent acA .posted _ rfl).2
     "b@daily-2026-01-08" rfl (by decide)⟩

/-- C1 counterexample: the remote reports a latest snapshot whose short
name is absent from the local catalog, yet the run issues an incremental
send against exactly that base - it does not stop with a divergence
error and the transfer list is not empty. -/
theorem repl_diverged_counterexample :
    replGetRemoteLatestSnapshot replEnvDiverged = some "b@daily-2026-01-03"
    ∧ shortSnapName "b@daily-2026-01-03"
        ∉ (replLocalCatalog replEnvDiverged).map shortSnapName
    ∧ (runReplicationJob replEnvDiverged acA .posted).transfers
      = [ReplTransfer.incrementalSend "daily-2026-01-03" "a@daily-2026-01-09"] :=
  ⟨rfl, by decide, rfl⟩

/-- C1 amended: when the remote latest is absent from the local catalog,
the engine performs no divergence detection: it still issues exactly one
incremental send with that reported base (and hence does not fall back
to a full send, and does not refrain from transferring). -/
theorem repl_no_divergence_detection
    (env : ReplEnv) (ac : AlertConfig) (http : HttpOutcome) (s r : String)
    (hl : replGetLatestSnapshot env = some s)
    (hr : replGetRemoteLatestSnapshot env = some r)
    (habsent : shortSnapName r ∉ (replLocalCatalog env).map shortSnapName) :
    (runReplicationJob env ac http).transfers
      = [ReplTransfer.incrementalSend (shortSnapName r) s]
    ∧ (runReplicationJob env ac http).transfers ≠ [] := by
  have h := replicationTry_incremental env s r hl hr
  rw [runReplicationJob_transfers]
  exact ⟨h, by simp [h]⟩

/-- Concrete instantiation of repl_no_divergence_detection on the
diverged environment. -/
theorem repl_no_divergence_detection_witness :
    replGetLatestSnapshot replEnvDiverged = some "a@daily-2026-01-09"
    ∧ replGetRemoteLatestSnapshot replEnvDiverged = some "b@daily-2026-01-03"
    ∧ shortSnapName "b@daily-2026-01-03"
        ∉ (replLocalCatalog replEnvDiverged).map shortSnapName
    ∧ ((runReplicationJob replEnvDiverged acA .posted).transfers
        = [ReplTransfer.incrementalSend (shortSnapName "b@daily-2026-01-03")
            "a@daily-2026-01-09"]
      ∧ (runReplicationJob replEnvDiverged acA .posted).transfers ≠ []) :=
  ⟨rfl, rfl, by decide,
   repl_no_divergence_detection replEnvDiverged acA .posted _ _ rfl rfl (by decide)⟩

/-- C6 counterexample: a failed listing and an empty listing produce the
same value for the caller - the empty list in the snapshot job, None in
the replication job - so no could-not-determine signal exists. -/
theorem enumeration_failure_counterexample :
    snapListSnapshots envListFail "daily" = snapListSnapshots envListEmpty "daily"
    ∧ snapListSnapshots envListFail "daily" = []
    ∧ replGetLatestSnapshot replEnvListFail = replGetLatestSnapshot replEnvListEmptyOut
    ∧ replGetLatestSnapshot replEnvListFail = none :=
  ⟨rfl, rfl, rfl, rfl⟩

/-- C6 amended: failure of the underlying listing command is swallowed:
the snapshot catalog returns the empty list and the replication catalog
query returns None, with no distinct error value. -/
theorem enumeration_failure_yields_empty
    (env : SnapEnv) (renv : ReplEnv) (ty : String)
    (h1 : (runCommand env.listOutcome).1 = false)
    (h2 : (runCommand renv.localListOutcome).1 = false) :
    snapListSnapshots env ty = [] ∧ replGetLatestSnapshot renv = none := by
  constructor
  · simp [snapListSnapshots, h1]
  · simp [replGetLatestSnapshot, h2]

/-- Concrete instantiation of enumeration_failure_yields_empty on failing
listings. -/
theorem enumeration_failure_yields_empty_witness :
    (runCommand envListFail.listOutcome).1 = false
    ∧ (runCommand replEnvListFail.localListOutcome).1 = false
    ∧ (snapListSnapshots envListFail "daily" = []
        ∧ replGetLatestSnapshot replEnvListFail = none) :=
  ⟨rfl, rfl,
   enumeration_failure_yields_empty envListFail replEnvListFail "daily" rfl rfl⟩

/-- C5 counterexample: with a daily snapshot and a chronologically newer
monthly snapshot in the local catalog, the run ships the daily one,
although the latest snapshot across all classes (modelled from the spec)
is the monthly one. -/
theorem repl_latest_across_classes_counterexample :
    replGetLatestSnapshot replEnvMixedClasses = some "a@daily-2026-01-08"
    ∧ spec_latestAcrossAllClasses (replLocalCatalog replEnvMixedClasses)
      = some "a@monthly-2026-01-09"
    ∧ (runReplicationJob replEnvMixedClasses acA .posted).transfers
      = [ReplTransfer.fullSend "a@daily-2026-01-08"] :=
  ⟨rfl, rfl, rfl⟩

/-- C5 amended: the snapshot chosen to ship is the latest local daily
snapshot: it always belongs to the daily-filtered listing and is an
upper bound of it; snapshots of other classes are never considered. -/
theorem repl_ships_latest_daily
    (env : ReplEnv) (s : String)
    (hl : replGetLatestSnapshot env = some s) :
    s ∈ replDailyLines env ∧ ∀ t ∈ replDailyLines env, strLeB t s = true := by
  unfold replGetLatestSnapshot at hl
  cases hok : (runCommand env.localListOutcome).1 with
  | false => rw [hok] at hl; simp at hl
  | true =>
    rw [hok] at hl
    simp only [if_true] at hl
    cases hemp : (replDailyLines env).isEmpty with
    | true => rw [hemp] at hl; simp at hl
    | false =>
      rw [hemp] at hl
      simp only [Bool.false_eq_true, if_false] at hl
      constructor
      · exact mem_sortStringsBy.1 (List.mem_of_getLast?_eq_some hl)
      · intro t ht
        have hp := sortStrings_pairwise (replDailyLines env)
        have hub := pairwise_getLast_ub hp hl t (mem_sortStringsBy.2 ht)
        rcases hub with rfl | hle
        · rcases strLeB_total t t with h | h <;> exact h
        · exact hle

/-- Concrete instantiation of repl_ships_latest_daily on the mixed-class
catalog. -/
theorem repl_ships_latest_daily_witness :
    replGetLatestSnapshot replEnvMixedClasses = some "a@daily-2026-01-08"
    ∧ ("a@daily-2026-01-08" ∈ replDailyLines replEnvMixedClasses
        ∧ ∀ t ∈ replDailyLines replEnvMixedClasses,
            strLeB t "a@daily-2026-01-08" = true) :=
  ⟨rfl, repl_ships_latest_daily replEnvMixedClasses _ rfl⟩

end AshVault
